import Mathlib

/-!
Verification of the RMTPy random-matrix ensemble generators and
spectral-statistics pipeline.

The Python code is shallowly embedded: matrices are total functions
over natural-number indices with complex entries modelled as pairs of
exact rationals (floating-point arithmetic is modelled exactly; the
irrational scale constants such as sigma/sqrt(2) enter only as
multiplicative parameters, so they are abstracted as rational
parameters).  The NumPy RNG is modelled as an arbitrary family of
draw values, one family per `standard_normal` call site, so every
theorem quantifies over all possible random draws.  In-place buffer
mutation (the `offset`/`out` parameters) is modelled by a store of
buffers indexed by references, with allocation appending to the store.
-/

namespace RMTPy

/-- Complex value: a pair of exact rationals (real part, imaginary part). -/
abbrev Cpx := ℚ × ℚ

/-- Complex conjugation on entry pairs. -/
def Cpx.conj (z : Cpx) : Cpx := (z.1, -z.2)

/-- Squared modulus, the exact value of `np.abs(z) ** 2`. -/
def Cpx.abs2 (z : Cpx) : ℚ := z.1 * z.1 + z.2 * z.2

/-- A matrix is a total function on indices; entries outside the
allocated `dim × dim` block are identically zero. -/
abbrev Mat := ℕ → ℕ → Cpx

/-- The zero-initialized buffer `np.zeros((dim, dim))`. -/
def zeroMat : Mat := fun _ _ => (0, 0)

/-- Hermitian symmetry: `H` equals its own conjugate transpose. -/
def IsHermitian (H : Mat) : Prop := ∀ a b, H b a = Cpx.conj (H a b)

theorem conj_add (u v : Cpx) : Cpx.conj (u + v) = Cpx.conj u + Cpx.conj v := by
  simp [Cpx.conj, Prod.ext_iff]
  ring

theorem neg_ite_zero (p : Prop) [Decidable p] (x : ℚ) :
    (if p then -x else (0 : ℚ)) = -(if p then x else 0) := by
  split <;> simp

/-! ### GOE.generate (src/rmtpy/ensembles/goe.py, lines 64-93)

`H.real` is filled with standard-normal draws `g a b`, `H.imag` with
zeros, then `np.add(H, H.T, out=H)` symmetrizes and `H *= sigma / 2`
scales.  The `out` argument of `generate` is never consulted; the
buffer-reference behaviour is modelled separately in the store model
below. -/

def goeGenerate (n : ℕ) (σ : ℚ) (g : ℕ → ℕ → ℚ) : Mat :=
  fun a b => if a < n ∧ b < n then ((g a b + g b a) * (σ / 2), 0) else (0, 0)

theorem goeGenerate_hermitian (n : ℕ) (σ : ℚ) (g : ℕ → ℕ → ℚ) :
    IsHermitian (goeGenerate n σ g) := by
  intro a b
  unfold goeGenerate
  by_cases ha : a < n <;> by_cases hb : b < n <;>
    simp [ha, hb, Cpx.conj, Prod.ext_iff] <;> (first | exact Or.inl (by ring) | ring)

theorem goeGenerate_real_symmetric (n : ℕ) (σ : ℚ) (g : ℕ → ℕ → ℚ) :
    (∀ a b, (goeGenerate n σ g a b).2 = 0) ∧
      (∀ a b, goeGenerate n σ g b a = goeGenerate n σ g a b) := by
  constructor
  · intro a b
    unfold goeGenerate
    split <;> rfl
  · intro a b
    unfold goeGenerate
    by_cases ha : a < n <;> by_cases hb : b < n <;>
      simp [ha, hb, Prod.ext_iff] <;> (first | exact Or.inl (by ring) | ring)

/-! ### GUE.randm (src/rmtpy/ensembles/gue.py, lines 34-61)

For each diagonal index `i`, fresh real and imaginary draws of length
`dim - i` are scaled by `sigma / 2` and accumulated into row `i`
(columns `i` onward) and column `i` (rows `i` onward); the column gets
the negated imaginary parts.  Draws are modelled as `re i j` / `im i j`
for iteration `i`, offset `j`. -/

def gueStep (n : ℕ) (σ : ℚ) (i : ℕ) (re im : ℕ → ℚ) (H : Mat) : Mat :=
  fun a b =>
    H a b
      + (if a = i ∧ i ≤ b ∧ b < n then
          ((re (b - i) * (σ / 2), im (b - i) * (σ / 2)) : Cpx) else 0)
      + (if b = i ∧ i ≤ a ∧ a < n then
          ((re (a - i) * (σ / 2), -(im (a - i) * (σ / 2))) : Cpx) else 0)

def gueRandm (n : ℕ) (σ : ℚ) (re im : ℕ → ℕ → ℚ) (H₀ : Mat) : Mat :=
  (List.range n).foldl (fun H i => gueStep n σ i (re i) (im i) H) H₀

theorem isHermitian_foldl {step : ℕ → Mat → Mat}
    (hstep : ∀ i H, IsHermitian H → IsHermitian (step i H)) :
    ∀ (l : List ℕ) (H : Mat), IsHermitian H →
      IsHermitian (l.foldl (fun H i => step i H) H) := by
  intro l
  induction l with
  | nil => intro H hH; exact hH
  | cons i l ih => intro H hH; exact ih _ (hstep i H hH)

theorem gueStep_hermitian (n : ℕ) (σ : ℚ) (i : ℕ) (re im : ℕ → ℚ)
    (H : Mat) (hH : IsHermitian H) : IsHermitian (gueStep n σ i re im H) := by
  intro a b
  unfold gueStep
  rw [conj_add, conj_add, ← hH a b]
  refine Prod.ext ?_ ?_ <;>
    simp [Cpx.conj, neg_ite_zero, apply_ite Prod.fst, apply_ite Prod.snd] <;>
    ring

theorem gueRandm_hermitian (n : ℕ) (σ : ℚ) (re im : ℕ → ℕ → ℚ) :
    IsHermitian (gueRandm n σ re im zeroMat) := by
  refine isHermitian_foldl (fun i H hH => gueStep_hermitian n σ i (re i) (im i) H hH) _ _ ?_
  intro a b
  rfl

/-! ### GSE.randm (src/rmtpy/ensembles/gse.py, lines 34-98)

Block construction over `bdim = dim // 2`: per iteration `i`, a GUE-like
block is accumulated in the top-left with its conjugate in the
bottom-right, and a complex anti-symmetric block (first entry of each
draw array forced to zero via `zeros` + `[1:]`) in the top-right with
its negative conjugate in the bottom-left.  `headZero` models the draw
arrays whose index-0 entry stays zero. -/

def headZero (v : ℕ → ℚ) (j : ℕ) : ℚ := if j = 0 then 0 else v (j - 1)

def gseStep (n : ℕ) (σ : ℚ) (i : ℕ) (rA iA rB iB : ℕ → ℚ) (H : Mat) : Mat :=
  fun a b =>
    H a b
      + (if a = i ∧ i ≤ b ∧ b < n / 2 then
          ((rA (b - i) * (σ / 2), iA (b - i) * (σ / 2)) : Cpx) else 0)
      + (if b = i ∧ i ≤ a ∧ a < n / 2 then
          ((rA (a - i) * (σ / 2), -(iA (a - i) * (σ / 2))) : Cpx) else 0)
      + (if a = n / 2 + i ∧ n / 2 + i ≤ b ∧ b < n then
          ((rA (b - (n / 2 + i)) * (σ / 2), -(iA (b - (n / 2 + i)) * (σ / 2))) : Cpx) else 0)
      + (if b = n / 2 + i ∧ n / 2 + i ≤ a ∧ a < n then
          ((rA (a - (n / 2 + i)) * (σ / 2), iA (a - (n / 2 + i)) * (σ / 2)) : Cpx) else 0)
      + (if a = i ∧ n / 2 + i ≤ b ∧ b < n then
          ((headZero rB (b - (n / 2 + i)) * (σ / 2),
            headZero iB (b - (n / 2 + i)) * (σ / 2)) : Cpx) else 0)
      + (if b = n / 2 + i ∧ i ≤ a ∧ a < n / 2 then
          ((-(headZero rB (a - i) * (σ / 2)),
            -(headZero iB (a - i) * (σ / 2))) : Cpx) else 0)
      + (if a = n / 2 + i ∧ i ≤ b ∧ b < n / 2 then
          ((-(headZero rB (b - i) * (σ / 2)),
            headZero iB (b - i) * (σ / 2)) : Cpx) else 0)
      + (if b = i ∧ n / 2 + i ≤ a ∧ a < n then
          ((headZero rB (a - (n / 2 + i)) * (σ / 2),
            -(headZero iB (a - (n / 2 + i)) * (σ / 2))) : Cpx) else 0)

def gseRandm (n : ℕ) (σ : ℚ) (rA iA rB iB : ℕ → ℕ → ℚ) (H₀ : Mat) : Mat :=
  (List.range (n / 2)).foldl (fun H i => gseStep n σ i (rA i) (iA i) (rB i) (iB i) H) H₀

theorem gseStep_hermitian (n : ℕ) (σ : ℚ) (i : ℕ) (rA iA rB iB : ℕ → ℚ)
    (H : Mat) (hH : IsHermitian H) : IsHermitian (gseStep n σ i rA iA rB iB H) := by
  intro a b
  unfold gseStep
  simp only [conj_add]
  rw [← hH a b]
  refine Prod.ext ?_ ?_ <;>
    simp [Cpx.conj, neg_ite_zero, apply_ite Prod.fst, apply_ite Prod.snd] <;>
    ring

theorem gseRandm_hermitian (n : ℕ) (σ : ℚ) (rA iA rB iB : ℕ → ℕ → ℚ) :
    IsHermitian (gseRandm n σ rA iA rB iB zeroMat) := by
  refine isHermitian_foldl
    (fun i H hH => gseStep_hermitian n σ i (rA i) (iA i) (rB i) (iB i) H hH) _ _ ?_
  intro a b
  rfl

/-! ### BdGC.randm (src/rmtpy/ensembles/bdgc.py, lines 39-97)

Particle-hole symmetric construction: GUE-like top-left block, its
negative conjugate bottom-right, complex-symmetric top-right block,
its conjugate bottom-left. -/

def bdgcStep (n : ℕ) (σ : ℚ) (i : ℕ) (rA iA rB iB : ℕ → ℚ) (H : Mat) : Mat :=
  fun a b =>
    H a b
      + (if a = i ∧ i ≤ b ∧ b < n / 2 then
          ((rA (b - i) * (σ / 2), iA (b - i) * (σ / 2)) : Cpx) else 0)
      + (if b = i ∧ i ≤ a ∧ a < n / 2 then
          ((rA (a - i) * (σ / 2), -(iA (a - i) * (σ / 2))) : Cpx) else 0)
      + (if a = n / 2 + i ∧ n / 2 + i ≤ b ∧ b < n then
          ((-(rA (b - (n / 2 + i)) * (σ / 2)), iA (b - (n / 2 + i)) * (σ / 2)) : Cpx) else 0)
      + (if b = n / 2 + i ∧ n / 2 + i ≤ a ∧ a < n then
          ((-(rA (a - (n / 2 + i)) * (σ / 2)), -(iA (a - (n / 2 + i)) * (σ / 2))) : Cpx) else 0)
      + (if a = i ∧ n / 2 + i ≤ b ∧ b < n then
          ((rB (b - (n / 2 + i)) * (σ / 2), iB (b - (n / 2 + i)) * (σ / 2)) : Cpx) else 0)
      + (if b = n / 2 + i ∧ i ≤ a ∧ a < n / 2 then
          ((rB (a - i) * (σ / 2), iB (a - i) * (σ / 2)) : Cpx) else 0)
      + (if a = n / 2 + i ∧ i ≤ b ∧ b < n / 2 then
          ((rB (b - i) * (σ / 2), -(iB (b - i) * (σ / 2))) : Cpx) else 0)
      + (if b = i ∧ n / 2 + i ≤ a ∧ a < n then
          ((rB (a - (n / 2 + i)) * (σ / 2), -(iB (a - (n / 2 + i)) * (σ / 2))) : Cpx) else 0)

def bdgcRandm (n : ℕ) (σ : ℚ) (rA iA rB iB : ℕ → ℕ → ℚ) (H₀ : Mat) : Mat :=
  (List.range (n / 2)).foldl (fun H i => bdgcStep n σ i (rA i) (iA i) (rB i) (iB i) H) H₀

theorem bdgcStep_hermitian (n : ℕ) (σ : ℚ) (i : ℕ) (rA iA rB iB : ℕ → ℚ)
    (H : Mat) (hH : IsHermitian H) : IsHermitian (bdgcStep n σ i rA iA rB iB H) := by
  intro a b
  unfold bdgcStep
  simp only [conj_add]
  rw [← hH a b]
  refine Prod.ext ?_ ?_ <;>
    simp [Cpx.conj, neg_ite_zero, apply_ite Prod.fst, apply_ite Prod.snd] <;>
    ring

theorem bdgcRandm_hermitian (n : ℕ) (σ : ℚ) (rA iA rB iB : ℕ → ℕ → ℚ) :
    IsHermitian (bdgcRandm n σ rA iA rB iB zeroMat) := by
  refine isHermitian_foldl
    (fun i H hH => bdgcStep_hermitian n σ i (rA i) (iA i) (rB i) (iB i) H hH) _ _ ?_
  intro a b
  rfl

/-! ### BdGD.randm (src/rmtpy/ensembles/bdgd.py, lines 39-63)

Purely imaginary anti-symmetric construction: per diagonal index `i`
imaginary draws with the index-0 entry forced to zero (the diagonal is
never filled) are added to row `i` and subtracted from column `i`.
The scale constant `c` stands for `sigma / sqrt(2)`. -/

def bdgdStep (n : ℕ) (c : ℚ) (i : ℕ) (v : ℕ → ℚ) (H : Mat) : Mat :=
  fun a b =>
    H a b
      + (if a = i ∧ i ≤ b ∧ b < n then ((0, headZero v (b - i) * c) : Cpx) else 0)
      + (if b = i ∧ i ≤ a ∧ a < n then ((0, -(headZero v (a - i) * c)) : Cpx) else 0)

def bdgdRandm (n : ℕ) (c : ℚ) (v : ℕ → ℕ → ℚ) (H₀ : Mat) : Mat :=
  (List.range n).foldl (fun H i => bdgdStep n c i (v i) H) H₀

theorem bdgdStep_hermitian (n : ℕ) (c : ℚ) (i : ℕ) (v : ℕ → ℚ)
    (H : Mat) (hH : IsHermitian H) : IsHermitian (bdgdStep n c i v H) := by
  intro a b
  unfold bdgdStep
  simp only [conj_add]
  rw [← hH a b]
  refine Prod.ext ?_ ?_ <;>
    simp [Cpx.conj, neg_ite_zero, apply_ite Prod.fst, apply_ite Prod.snd] <;>
    ring

theorem bdgdRandm_hermitian (n : ℕ) (c : ℚ) (v : ℕ → ℕ → ℚ) :
    IsHermitian (bdgdRandm n c v zeroMat) := by
  refine isHermitian_foldl (fun i H hH => bdgdStep_hermitian n c i (v i) H hH) _ _ ?_
  intro a b
  rfl

/-- Structure invariant of BdG(D) matrices: zero real part,
anti-symmetric imaginary part, zero diagonal. -/
def BdGDShape (M : Mat) : Prop :=
  (∀ a b, (M a b).1 = 0) ∧ (∀ a b, (M b a).2 = -((M a b).2)) ∧ (∀ a, (M a a).2 = 0)

theorem foldl_preserves {α : Type} {P : α → Prop} {step : ℕ → α → α}
    (h : ∀ i x, P x → P (step i x)) :
    ∀ (l : List ℕ) (x : α), P x → P (l.foldl (fun x i => step i x) x) := by
  intro l
  induction l with
  | nil => intro x hx; exact hx
  | cons i l ih => intro x hx; exact ih _ (h i x hx)

theorem bdgdStep_shape (n : ℕ) (c : ℚ) (i : ℕ) (v : ℕ → ℚ)
    (H : Mat) (hH : BdGDShape H) : BdGDShape (bdgdStep n c i v H) := by
  obtain ⟨h1, h2, h3⟩ := hH
  refine ⟨?_, ?_, ?_⟩
  · intro a b
    unfold bdgdStep
    simp [h1 a b, apply_ite Prod.fst]
  · intro a b
    unfold bdgdStep
    simp [h2 a b, neg_ite_zero, apply_ite Prod.snd]
    ring
  · intro a
    unfold bdgdStep
    simp [h3 a, neg_ite_zero, apply_ite Prod.snd]

theorem bdgdRandm_shape (n : ℕ) (c : ℚ) (v : ℕ → ℕ → ℚ) :
    BdGDShape (bdgdRandm n c v zeroMat) := by
  refine foldl_preserves (fun i H hH => bdgdStep_shape n c i (v i) H hH) _ _ ?_
  refine ⟨fun a b => rfl, fun a b => ?_, fun a => rfl⟩
  show (0 : ℚ) = -0
  norm_num

/-- C1: for every Gaussian-class ensemble (GOE, GUE, GSE, BdGC, BdGD) and
every sequence of RNG draws, the matrix built by `generate`/`randm` from a
zero-initialized buffer is Hermitian; for GOE it is real symmetric, and for
BdGD the real part is zero and the imaginary part is anti-symmetric with
zero diagonal.  For GSE and BdGC the dimension is assumed even (the actual
many-body dimensions `2 ^ (N / 2 - 1)` are 1 or even; for odd `n > 1` the
NumPy block slices would raise a broadcast error instead of returning). -/
theorem c1_gaussian_generators_hermitian :
    (∀ (n : ℕ) (σ : ℚ) (g : ℕ → ℕ → ℚ),
        IsHermitian (goeGenerate n σ g) ∧
        (∀ a b, (goeGenerate n σ g a b).2 = 0) ∧
        (∀ a b, goeGenerate n σ g b a = goeGenerate n σ g a b)) ∧
    (∀ (n : ℕ) (σ : ℚ) (re im : ℕ → ℕ → ℚ),
        IsHermitian (gueRandm n σ re im zeroMat)) ∧
    (∀ (n : ℕ) (σ : ℚ) (rA iA rB iB : ℕ → ℕ → ℚ), n % 2 = 0 →
        IsHermitian (gseRandm n σ rA iA rB iB zeroMat)) ∧
    (∀ (n : ℕ) (σ : ℚ) (rA iA rB iB : ℕ → ℕ → ℚ), n % 2 = 0 →
        IsHermitian (bdgcRandm n σ rA iA rB iB zeroMat)) ∧
    (∀ (n : ℕ) (c : ℚ) (v : ℕ → ℕ → ℚ),
        IsHermitian (bdgdRandm n c v zeroMat) ∧ BdGDShape (bdgdRandm n c v zeroMat)) := by
  refine ⟨?_, ?_, ?_, ?_, ?_⟩
  · intro n σ g
    exact ⟨goeGenerate_hermitian n σ g, goeGenerate_real_symmetric n σ g⟩
  · intro n σ re im
    exact gueRandm_hermitian n σ re im
  · intro n σ rA iA rB iB _
    exact gseRandm_hermitian n σ rA iA rB iB
  · intro n σ rA iA rB iB _
    exact bdgcRandm_hermitian n σ rA iA rB iB
  · intro n c v
    exact ⟨bdgdRandm_hermitian n c v, bdgdRandm_shape n c v⟩

/-- Witness for C1 at dimension 2 with constant unit draws: the evenness
hypotheses of the GSE and BdGC conjuncts are discharged concretely. -/
theorem c1_gaussian_generators_hermitian_witness :
    IsHermitian (gseRandm 2 1 (fun _ _ => 1) (fun _ _ => 1)
        (fun _ _ => 1) (fun _ _ => 1) zeroMat) ∧
    IsHermitian (bdgcRandm 2 1 (fun _ _ => 1) (fun _ _ => 1)
        (fun _ _ => 1) (fun _ _ => 1) zeroMat) :=
  ⟨c1_gaussian_generators_hermitian.2.2.1 2 1 _ _ _ _ (by decide),
   c1_gaussian_generators_hermitian.2.2.2.1 2 1 _ _ _ _ (by decide)⟩

/-! ### Buffer/reference semantics of the generators (claim C3)

Mutable NumPy buffers are modelled as a store (list) of matrices;
a reference is an index into the store, `np.zeros` / `np.empty`
allocation appends a fresh buffer at index `store.length`.  Each
stateful generator returns the reference of the array the Python
function returns, together with the updated store. -/

abbrev Store := List Mat

/-- Dereference a buffer; out-of-range references give the zero matrix. -/
def getBuf (s : Store) (r : ℕ) : Mat := s.getD r zeroMat

/-- GOE.generate (goe.py lines 64-93): allocates `H = np.empty(...)`,
fully overwrites it, and returns it; the `out` parameter is never read,
so the returned reference is always the freshly allocated one. -/
def goeGenerateSt (n : ℕ) (σ : ℚ) (g : ℕ → ℕ → ℚ) (out : Option ℕ) (s : Store) :
    ℕ × Store :=
  (s.length, s ++ [goeGenerate n σ g])

/-- GUE.randm (gue.py lines 34-61): uses the passed buffer when given,
otherwise allocates `np.zeros(...)`; accumulates into that buffer in
place and returns it. -/
def gueRandmSt (n : ℕ) (σ : ℚ) (re im : ℕ → ℕ → ℚ) (offset : Option ℕ) (s : Store) :
    ℕ × Store :=
  match offset with
  | none => (s.length, s ++ [gueRandm n σ re im zeroMat])
  | some r => (r, s.set r (gueRandm n σ re im (getBuf s r)))

/-- Threshold `1e-7` from Poisson.generate. -/
def poissonThreshold : ℚ := 1 / 10 ^ 7

/-- Zero out a value whose absolute value is below the threshold
(`H.real[np.abs(H.real) < threshold] = 0.0`, poisson.py lines 83-86). -/
def clipQ (t x : ℚ) : ℚ := if |x| < t then 0 else x

def clipMat (t : ℚ) (M : Mat) : Mat :=
  fun a b => (clipQ t (M a b).1, clipQ t (M a b).2)

/-- Poisson.generate (poisson.py lines 53-89): uses the passed buffer or
allocates `np.zeros(...)`, adds the realization `U D U†` (here the
abstract matrix `M`, since the QR-derived unitary is numerical), clips
sub-threshold noise in place, and returns that same buffer. -/
def poissonGenerateSt (n : ℕ) (M : Mat) (offset : Option ℕ) (s : Store) :
    ℕ × Store :=
  match offset with
  | none => (s.length, s ++ [clipMat poissonThreshold (fun a b => zeroMat a b + M a b)])
  | some r => (r, s.set r (clipMat poissonThreshold (fun a b => getBuf s r a b + M a b)))

theorem getBuf_append (s : Store) (m : Mat) : getBuf (s ++ [m]) s.length = m := by
  simp [getBuf]

theorem getBuf_set (s : Store) (r : ℕ) (m : Mat) (h : r < s.length) :
    getBuf (s.set r m) r = m := by
  simp [getBuf, List.getD, List.getElem?_set_self h]

theorem getBuf_append_lt (s : Store) (m : Mat) (r : ℕ) (h : r < s.length) :
    getBuf (s ++ [m]) r = getBuf s r := by
  simp [getBuf, List.getD, List.getElem?_append_left h]

/-- C3 counterexample: GOE.generate does not fill or return the passed
buffer.  With a one-buffer store and the buffer reference 0 passed as
`out`, the returned reference is the freshly allocated index 1, the
passed buffer still holds its old (zero) contents, and the realization
lives in the fresh buffer instead. -/
theorem c3_buffer_reuse_counterexample :
    (goeGenerateSt 1 2 (fun _ _ => 1) (some 0) [zeroMat]).1 ≠ 0 ∧
    getBuf (goeGenerateSt 1 2 (fun _ _ => 1) (some 0) [zeroMat]).2 0 0 0 = (0, 0) ∧
    getBuf (goeGenerateSt 1 2 (fun _ _ => 1) (some 0) [zeroMat]).2
      (goeGenerateSt 1 2 (fun _ _ => 1) (some 0) [zeroMat]).1 0 0 = (2, 0) := by
  refine ⟨by decide, rfl, ?_⟩
  show goeGenerate 1 2 (fun _ _ => 1) 0 0 = (2, 0)
  simp [goeGenerate, Prod.ext_iff]
  norm_num

/-- C3 amended: GUE.randm and Poisson.generate fill the passed buffer in
place and return that very buffer reference, and allocate a
zero-initialized buffer when none is passed; GOE.generate instead always
returns a freshly allocated array and leaves every existing buffer
untouched. -/
theorem c3_buffer_reuse_amended :
    (∀ (n : ℕ) (σ : ℚ) (re im : ℕ → ℕ → ℚ) (r : ℕ) (s : Store), r < s.length →
        (gueRandmSt n σ re im (some r) s).1 = r ∧
        getBuf (gueRandmSt n σ re im (some r) s).2 r =
          gueRandm n σ re im (getBuf s r)) ∧
    (∀ (n : ℕ) (σ : ℚ) (re im : ℕ → ℕ → ℚ) (s : Store),
        (gueRandmSt n σ re im none s).1 = s.length ∧
        getBuf (gueRandmSt n σ re im none s).2 s.length =
          gueRandm n σ re im zeroMat) ∧
    (∀ (n : ℕ) (M : Mat) (r : ℕ) (s : Store), r < s.length →
        (poissonGenerateSt n M (some r) s).1 = r ∧
        getBuf (poissonGenerateSt n M (some r) s).2 r =
          clipMat poissonThreshold (fun a b => getBuf s r a b + M a b)) ∧
    (∀ (n : ℕ) (M : Mat) (s : Store),
        (poissonGenerateSt n M none s).1 = s.length ∧
        getBuf (poissonGenerateSt n M none s).2 s.length =
          clipMat poissonThreshold (fun a b => zeroMat a b + M a b)) ∧
    (∀ (n : ℕ) (σ : ℚ) (g : ℕ → ℕ → ℚ) (out : Option ℕ) (s : Store),
        (goeGenerateSt n σ g out s).1 = s.length ∧
        ∀ r, r < s.length →
          getBuf (goeGenerateSt n σ g out s).2 r = getBuf s r) := by
  refine ⟨?_, ?_, ?_, ?_, ?_⟩
  · intro n σ re im r s h
    exact ⟨rfl, getBuf_set s r _ h⟩
  · intro n σ re im s
    exact ⟨rfl, getBuf_append s _⟩
  · intro n M r s h
    exact ⟨rfl, getBuf_set s r _ h⟩
  · intro n M s
    exact ⟨rfl, getBuf_append s _⟩
  · intro n σ g out s
    exact ⟨rfl, fun r h => getBuf_append_lt s _ r h⟩

/-- Witness for C3 amended: the in-range hypotheses are discharged on a
concrete one-buffer store. -/
theorem c3_buffer_reuse_amended_witness :
    ((gueRandmSt 1 1 (fun _ _ => 1) (fun _ _ => 1) (some 0) [zeroMat]).1 = 0 ∧
      getBuf (gueRandmSt 1 1 (fun _ _ => 1) (fun _ _ => 1) (some 0) [zeroMat]).2 0 =
        gueRandm 1 1 (fun _ _ => 1) (fun _ _ => 1) (getBuf [zeroMat] 0)) ∧
    ((poissonGenerateSt 1 zeroMat (some 0) [zeroMat]).1 = 0 ∧
      getBuf (poissonGenerateSt 1 zeroMat (some 0) [zeroMat]).2 0 =
        clipMat poissonThreshold (fun a b => getBuf [zeroMat] 0 a b + zeroMat a b)) :=
  ⟨c3_buffer_reuse_amended.1 1 1 _ _ 0 [zeroMat] (by decide),
   c3_buffer_reuse_amended.2.2.1 1 zeroMat 0 [zeroMat] (by decide)⟩

/-! ### Poisson eigenvalue draws and noise clipping (claim C7) -/

/-- Poisson.__sigma_default (poisson.py lines 30-34): `sigma = 2 * E0`. -/
def poissonSigma (E0 : ℚ) : ℚ := 2 * E0

/-- One diagonal eigenvalue of the factor `D` (poisson.py lines 73-76):
a uniform draw `u` from `[0, 1)` is shifted by `0.5` and scaled by
`sigma`. -/
def poissonEigval (E0 u : ℚ) : ℚ := (u - 1/2) * poissonSigma E0

/-- C7: every entry of a matrix returned by Poisson.generate has real and
imaginary parts that are exactly zero or at least `1e-7` in absolute
value, and every diagonal eigenvalue of the factor `D` lies in
`[-E0, E0]` whenever the uniform draw is in `[0, 1)` and `E0 ≥ 0`. -/
theorem c7_poisson_clip_and_eigval_range :
    (∀ (M : Mat) (a b : ℕ),
        ((clipMat poissonThreshold M a b).1 = 0 ∨
          poissonThreshold ≤ |(clipMat poissonThreshold M a b).1|) ∧
        ((clipMat poissonThreshold M a b).2 = 0 ∨
          poissonThreshold ≤ |(clipMat poissonThreshold M a b).2|)) ∧
    (∀ (E0 u : ℚ), 0 ≤ E0 → 0 ≤ u → u < 1 →
        -E0 ≤ poissonEigval E0 u ∧ poissonEigval E0 u ≤ E0) := by
  constructor
  · intro M a b
    constructor <;> {
      show clipQ poissonThreshold _ = 0 ∨ poissonThreshold ≤ |clipQ poissonThreshold _|
      unfold clipQ
      split
      · exact Or.inl rfl
      · exact Or.inr (le_of_not_lt (by assumption))
    }
  · intro E0 u hE hu0 hu1
    unfold poissonEigval poissonSigma
    constructor <;> nlinarith

/-- Witness for C7: the eigenvalue-range conjunct applied at `E0 = 1`,
`u = 1/2`, giving the center of the interval. -/
theorem c7_poisson_clip_and_eigval_range_witness :
    -(1 : ℚ) ≤ poissonEigval 1 (1/2) ∧ poissonEigval 1 (1/2) ≤ 1 :=
  c7_poisson_clip_and_eigval_range.2 1 (1/2) (by norm_num) (by norm_num) (by norm_num)

/-! ### Spectral form factor statistics (claim C2)

FormFactorsData (src/rmtpy/data/spectral_statistics_data/form_factors_data.py)
holds `mu_1`, `mu_2`, `sff`, `csff`, all zero-initialized
(`__default_sff`, lines 108-113 returns `np.zeros(...)`).
`SpectralStatistics.realize_monte_carlo` accumulates `sff_moments`
contributions into `mu_1` and `mu_2`;
`SpectralStatistics.calculate_statistics`
(src/rmtpy/simulations/spectral_simulation.py lines 201-236) divides
`mu_1` and `mu_2` by `realizs` in place and assigns
`csff[:] = factors.sff - np.abs(factors.mu_1) ** 2` — it never assigns
`sff`. -/

structure FormFactors where
  mu_1 : List Cpx
  mu_2 : List ℚ
  sff : List ℚ
  csff : List ℚ

/-- Zero-initialized FormFactorsData fields for `num_times` time points. -/
def formFactorsInit (numTimes : ℕ) : FormFactors :=
  ⟨List.replicate numTimes (0, 0), List.replicate numTimes 0,
   List.replicate numTimes 0, List.replicate numTimes 0⟩

/-- sff_moments (spectral_simulation.py lines 53-69): exponential terms
`exp(-1j * levels_j * t)` (the unit-modulus value is `cis (levels_j * t)`
for the mathematical function `cis x = exp(-i x)`, passed abstractly),
summed over the spectrum and divided by `dim = len(levels)`; the second
moment is the squared modulus of the first. -/
def sffMoments (cis : ℚ → Cpx) (levels times : List ℚ) : List Cpx × List ℚ :=
  let dim : ℚ := (levels.length : ℚ)
  let mu1 := times.map fun t =>
    let z := (levels.map fun e => cis (e * t)).foldl (fun acc w => acc + w) ((0 : ℚ), (0 : ℚ))
    (z.1 / dim, z.2 / dim)
  (mu1, mu1.map Cpx.abs2)

/-- Accumulation loop of realize_monte_carlo (spectral_simulation.py
lines 180-183): `factors.mu_1[:] += mu_1; factors.mu_2[:] += mu_2`. -/
def accumMoments (contribs : List (List Cpx × List ℚ)) (f : FormFactors) : FormFactors :=
  contribs.foldl
    (fun f c =>
      { f with
        mu_1 := List.zipWith (fun a b => a + b) f.mu_1 c.1
        mu_2 := List.zipWith (fun a b => a + b) f.mu_2 c.2 })
    f

/-- calculate_statistics (spectral_simulation.py lines 201-236), restricted
to the form-factor fields: `mu_1[:] /= realizs`, `mu_2[:] /= realizs`,
`csff[:] = sff - np.abs(mu_1) ** 2`; the `sff` field is not assigned. -/
def calculateStatistics (realizs : ℚ) (f : FormFactors) : FormFactors :=
  let mu1 := f.mu_1.map fun z => (z.1 / realizs, z.2 / realizs)
  let mu2 := f.mu_2.map fun x => x / realizs
  { mu_1 := mu1
    mu_2 := mu2
    sff := f.sff
    csff := List.zipWith (fun s z => s - Cpx.abs2 z) f.sff mu1 }

/-- C2: with one realization of the one-level spectrum `[0.0]` at a single
time point, the accumulated moments are `mu_1 = [1]`, `mu_2 = [1]`, so
the claim predicts `sff = [1]` and `csff = [0]` after
`calculate_statistics`; the code instead leaves the zero-initialized
`sff` untouched and stores `csff = [-1]`.  The hypothesis pins the one
exact value of the exponential used: `exp(-i·0·t) = 1`. -/
theorem c2_sff_never_assigned (cis : ℚ → Cpx) (hcis : cis 0 = (1, 0)) :
    (calculateStatistics 1
        (accumMoments [sffMoments cis [0] [1]] (formFactorsInit 1))).sff = [0] ∧
    (accumMoments [sffMoments cis [0] [1]] (formFactorsInit 1)).mu_2.map
        (fun x => x / 1) = [1] ∧
    (calculateStatistics 1
        (accumMoments [sffMoments cis [0] [1]] (formFactorsInit 1))).csff = [-1] := by
  have h0 : (0 : ℚ) * 1 = 0 := by norm_num
  refine ⟨?_, ?_, ?_⟩ <;>
    simp [calculateStatistics, accumMoments, sffMoments, formFactorsInit,
      h0, hcis, Cpx.abs2] <;>
    norm_num

/-- Witness for C2 at the constant-one stand-in for the exponential,
which agrees with `exp(-i x)` at the only argument used, `x = 0`. -/
theorem c2_sff_never_assigned_witness :
    (calculateStatistics 1
        (accumMoments [sffMoments (fun _ => ((1 : ℚ), (0 : ℚ))) [0] [1]]
          (formFactorsInit 1))).sff = [0] ∧
    (accumMoments [sffMoments (fun _ => ((1 : ℚ), (0 : ℚ))) [0] [1]]
        (formFactorsInit 1)).mu_2.map (fun x => x / 1) = [1] ∧
    (calculateStatistics 1
        (accumMoments [sffMoments (fun _ => ((1 : ℚ), (0 : ℚ))) [0] [1]]
          (formFactorsInit 1))).csff = [-1] :=
  c2_sff_never_assigned (fun _ => ((1 : ℚ), (0 : ℚ))) rfl

/-! ### Construction-time validation (claims C4, C8)

RMT._check_ensemble (src/rmtpy/ensembles/_rmt.py lines 134-168)
validates `N`/`dim`/`J` and derives the missing one of `N`, `dim`;
ManyBodyEnsemble validates `N` through the attrs validators `gt(2)` and
`__N_validator` (src/rmtpy/ensembles/_base/_manybody.py lines 33-54,
49-54) and derives `dim` through `__dim_default` (lines 56-62); SYK
computes `eta`/`sigma` with `math.comb` before running
`SYK._check_ensemble` (src/rmtpy/ensembles/syk.py lines 75-87, 109-131).
Raised `ValueError`s are modelled as `Except.error`.  The float
expression `2 * (np.log2(dim) + 1)` used to back-derive `N` when only
`dim` is given is abstracted as the parameter `nOfDim`, which no claim
depends on. -/

def rmtCheckEnsemble (nOfDim : Int → Int) (Nopt dimOpt : Option Int) (J : ℚ) :
    Except String (Int × Int) :=
  match Nopt with
  | some N =>
      if N < 1 ∨ N % 2 ≠ 0 then
        .error "Number of Majoranas must be a positive even integer."
      else
        match dimOpt with
        | some d =>
            if d ≠ 2 ^ (N / 2 - 1).toNat then
              .error "N and dim must be consistent."
            else if J ≤ 0 then
              .error "Interaction energy scale must be a positive number."
            else .ok (N, d)
        | none =>
            if J ≤ 0 then
              .error "Interaction energy scale must be a positive number."
            else .ok (N, 2 ^ (N / 2 - 1).toNat)
  | none =>
      match dimOpt with
      | some d =>
          if d < 1 then
            .error "Dimension must be a positive integer."
          else if J ≤ 0 then
            .error "Interaction energy scale must be a positive number."
          else .ok (nOfDim d, d)
      | none => .error "Either N or dim must be specified."

/-- attrs validators of ManyBodyEnsemble.N: `gt(2)` followed by
`__N_validator` (even). -/
def manyBodyCheckN (N : Int) : Except String Int :=
  if ¬(N > 2) then .error "N must be greater than 2"
  else if N % 2 ≠ 0 then .error "N must be an even integer"
  else .ok N

/-- ManyBodyEnsemble.__dim_default: `2 ** (self.N // 2 - 1)`. -/
def manyBodyDim (N : Int) : Int := 2 ^ (N / 2 - 1).toNat

/-- Construction of a ManyBodyEnsemble from `N` and `J`: `dim` is an
`init=False` attrs field, so it cannot be passed and always takes its
default. -/
def manyBodyMake (N : Int) (J : ℚ) : Except String (Int × Int) :=
  match manyBodyCheckN N with
  | .error e => .error e
  | .ok _ => if J ≤ 0 then .error "J must be greater than 0" else .ok (N, manyBodyDim N)

/-- SYK suppression factor (syk.py lines 75-78):
`eta = sum((-1)**(q-k) * comb(q,k) * comb(N-q, q-k) for k in range(q+1)) / comb(N,q)`. -/
def sykEta (N q : ℕ) : ℚ :=
  ((Finset.range (q + 1)).sum fun k =>
      ((-1 : ℚ)) ^ (q - k) * (Nat.choose q k : ℚ) * (Nat.choose (N - q) (q - k) : ℚ)) /
    (Nat.choose N q : ℚ)

/-- SYK construction (syk.py lines 49-95): the `eta`/`sigma` lines run
first and raise `ValueError` from `math.comb` on negative arguments;
`super().__init__` then dispatches to SYK._check_ensemble, which runs
the base checks followed by the `q` checks (`q < 2` or odd) and the
`N <= q` check. -/
def sykConstruct (q N : Int) (J : ℚ) : Except String ℚ :=
  if q < 0 ∨ N < 0 ∨ N - q < 0 then
    .error "n must be a non-negative integer"
  else
    match rmtCheckEnsemble (fun d => d) (some N) none J with
    | .error e => .error e
    | .ok _ =>
        if q < 2 ∨ q % 2 ≠ 0 then
          .error "Invalid SYK q-parameter. Must be even and greater than or equal to 2."
        else if N ≤ q then
          .error "Invalid N. Must be greater than q."
        else .ok (sykEta N.toNat q.toNat)

/-- True exactly when construction raised. -/
def isFailure {α : Type} : Except String α → Bool
  | .error _ => true
  | .ok _ => false

/-- C4: whenever an ensemble is successfully constructed from a particle
number `N` — through RMT._check_ensemble with or without an explicit
`dim` argument, or through the attrs ManyBodyEnsemble constructor, whose
`dim` field is `init=False` and hence never passable — the resulting
`dim` is `2 ^ (N / 2 - 1)`.  The construction result is immutable in
this functional model, matching the frozen attrs classes and the
property-only access in the Python source. -/
theorem c4_dim_from_N :
    (∀ (nOfDim : Int → Int) (N : Int) (dimOpt : Option Int) (J : ℚ) (res : Int × Int),
        rmtCheckEnsemble nOfDim (some N) dimOpt J = .ok res →
          res.2 = 2 ^ (N / 2 - 1).toNat) ∧
    (∀ (N : Int) (J : ℚ) (res : Int × Int),
        manyBodyMake N J = .ok res → res.2 = 2 ^ (N / 2 - 1).toNat) := by
  constructor
  · intro nOfDim N dimOpt J res h
    rcases dimOpt with _ | d <;> simp only [rmtCheckEnsemble] at h <;>
      split at h <;> simp_all <;> (try split at h) <;> (try simp_all) <;>
      (try split at h) <;> (try simp_all) <;> (try subst h) <;> (try rfl)
  · intro N J res h
    unfold manyBodyMake at h
    rcases hc : manyBodyCheckN N with e | m
    · rw [hc] at h; exact Except.noConfusion h
    · rw [hc] at h
      split at h
      · exact Except.noConfusion h
      · split at h
        · exact Except.noConfusion h
        · injection h with h
          rw [← h]
          rfl

/-- Witness for C4 at `N = 4`: both construction paths succeed with
`dim = 2 ^ (4 / 2 - 1) = 2`, once with the consistent explicit
`dim = 2` and once through the attrs path. -/
theorem c4_dim_from_N_witness :
    (((4 : Int), (2 : Int)).2 = 2 ^ (((4 : Int) / 2 - 1)).toNat) ∧
    (((4 : Int), (2 : Int)).2 = 2 ^ (((4 : Int) / 2 - 1)).toNat) :=
  ⟨c4_dim_from_N.1 (fun d => d) 4 (some 2) 1 (4, 2) rfl,
   c4_dim_from_N.2 4 1 (4, 2) rfl⟩

/-- C6 counterexample: for `N = 12`, `q = 4` the suppression factor is
`eta = -17/495`, which is negative and therefore not in the open
interval `(0, 1)` claimed. -/
theorem c6_eta_counterexample :
    sykEta 12 4 = -17/495 ∧ ¬(0 < sykEta 12 4 ∧ sykEta 12 4 < 1) := by
  have h : sykEta 12 4 = -17/495 := by
    unfold sykEta
    simp [Finset.sum_range_succ]
    norm_num [Nat.choose]
  refine ⟨h, ?_⟩
  rw [h]
  intro hc
  exact absurd hc.1 (by norm_num)

/-- C6 amended: for the SYK ensemble with `N = 12`, `q = 4` the
suppression factor computed at construction is `eta = -17/495`, which
lies strictly in the open interval `(-1, 1)` (it is negative, so it is
not in `(0, 1)`). -/
theorem c6_eta_amended :
    sykEta 12 4 = -17/495 ∧ -1 < sykEta 12 4 ∧ sykEta 12 4 < 1 ∧ sykEta 12 4 < 0 := by
  have h : sykEta 12 4 = -17/495 := by
    unfold sykEta
    simp [Finset.sum_range_succ]
    norm_num [Nat.choose]
  exact ⟨h, by rw [h]; norm_num, by rw [h]; norm_num, by rw [h]; norm_num⟩

/-- C8: invalid structural parameters fail at construction time — odd `N`
(both in RMT._check_ensemble and in the attrs validators of
ManyBodyEnsemble), SYK `q` that is odd or below 2, SYK `N ≤ q`, and
non-positive dimension each produce a construction error, so no instance
(and hence no `generate` call) ever exists for such parameters. -/
theorem c8_invalid_params_fail_fast :
    (∀ (nOfDim : Int → Int) (N : Int) (dimOpt : Option Int) (J : ℚ),
        N % 2 ≠ 0 → isFailure (rmtCheckEnsemble nOfDim (some N) dimOpt J) = true) ∧
    (∀ N : Int, N % 2 ≠ 0 → isFailure (manyBodyCheckN N) = true) ∧
    (∀ (q N : Int) (J : ℚ), q % 2 ≠ 0 ∨ q < 2 →
        isFailure (sykConstruct q N J) = true) ∧
    (∀ (q N : Int) (J : ℚ), N ≤ q → isFailure (sykConstruct q N J) = true) ∧
    (∀ (nOfDim : Int → Int) (d : Int) (J : ℚ),
        d < 1 → isFailure (rmtCheckEnsemble nOfDim none (some d) J) = true) := by
  refine ⟨?_, ?_, ?_, ?_, ?_⟩
  · intro nOfDim N dimOpt J h
    simp only [rmtCheckEnsemble]
    rw [if_pos (Or.inr h)]
    rfl
  · intro N h
    unfold manyBodyCheckN
    by_cases hg : N > 2
    · rw [if_neg (not_not_intro hg), if_pos h]
      rfl
    · rw [if_pos hg]
      rfl
  · intro q N J h
    unfold sykConstruct
    split
    · rfl
    · rcases hr : rmtCheckEnsemble (fun d => d) (some N) none J with e | m
      · rfl
      · rw [if_pos h.symm]
        rfl
  · intro q N J h
    unfold sykConstruct
    split
    · rfl
    · rcases hr : rmtCheckEnsemble (fun d => d) (some N) none J with e | m
      · rfl
      · by_cases hq : q < 2 ∨ q % 2 ≠ 0
        · rw [if_pos hq]
          rfl
        · rw [if_neg hq]
          rfl
  · intro nOfDim d J h
    simp only [rmtCheckEnsemble]
    rw [if_pos h]
    rfl

/-- Witness for C8: each invalid-parameter conjunct evaluated at a
concrete offender — `N = 3` (odd), SYK `q = 3` (odd), SYK `N = q = 4`,
and `dim = 0`. -/
theorem c8_invalid_params_fail_fast_witness :
    isFailure (rmtCheckEnsemble (fun d => d) (some 3) none 1) = true ∧
    isFailure (manyBodyCheckN 3) = true ∧
    isFailure (sykConstruct 3 12 1) = true ∧
    isFailure (sykConstruct 4 4 1) = true ∧
    isFailure (rmtCheckEnsemble (fun d => d) none (some 0) 1) = true :=
  ⟨c8_invalid_params_fail_fast.1 (fun d => d) 3 none 1 (by decide),
   c8_invalid_params_fail_fast.2.1 3 (by decide),
   c8_invalid_params_fail_fast.2.2.1 3 12 1 (Or.inl (by decide)),
   c8_invalid_params_fail_fast.2.2.2.1 4 4 1 (by decide),
   c8_invalid_params_fail_fast.2.2.2.2 (fun d => d) 0 1 (by decide)⟩

/-! ### Unfolding map of the many-body mixin (claim C5) -/

/-- The data of a ManyBodyEnsemble seen by `unfold`: the Hilbert-space
dimension and the (subclass-overridable) cumulative density function. -/
structure ManyBodySpec where
  dim : ℕ
  cdf : ℚ → ℚ

/-- ManyBodyEnsemble.unfold
(src/rmtpy/ensembles/_base/_manybody.py lines 162-166):
`self.dim * (self.cdf(eigval) - self.cdf(np.array([0.0])))`. -/
def ManyBodySpec.unfold (e : ManyBodySpec) (x : ℚ) : ℚ :=
  (e.dim : ℚ) * (e.cdf x - e.cdf 0)

/-- C5: for every many-body ensemble and eigenvalue `E`, `unfold(E)`
returns `dim * (cdf(E) - cdf(0))`. -/
theorem c5_unfold_formula :
    ∀ (e : ManyBodySpec) (x : ℚ),
      ManyBodySpec.unfold e x = (e.dim : ℚ) * (e.cdf x - e.cdf 0) := by
  intro e x
  rfl

/-- Poisson.cdf (poisson.py lines 152-165): zero outside the support,
`e / (2 E0) + 1/2` for `|e| < E0`, one above `E0`. -/
def poissonCdf (E0 : ℚ) (x : ℚ) : ℚ :=
  if |x| < E0 then x / (2 * E0) + 1/2 else if E0 < x then 1 else 0

/-- On the Poisson ensemble the unfolding map is exactly linear inside
the support: `unfold(E) = dim * E / (2 E0)`. -/
theorem poisson_unfold_linear (E0 x : ℚ) (h0 : 0 < E0) (hx : |x| < E0) (dim : ℕ) :
    ManyBodySpec.unfold ⟨dim, poissonCdf E0⟩ x = (dim : ℚ) * (x / (2 * E0)) := by
  show (dim : ℚ) * (poissonCdf E0 x - poissonCdf E0 0) = (dim : ℚ) * (x / (2 * E0))
  unfold poissonCdf
  rw [if_pos hx, if_pos (by simpa using h0)]
  ring

/-! ### Data save/load round trip (claim C9)

Data.save (src/rmtpy/data/_data.py lines 88-109) persists `asdict(self)`
whose `metadata["name"]` is the snake_case class name computed in
`__attrs_post_init__` (lines 78-86, regex `([a-z0-9])([A-Z])` ->
`\1_\2`, lowercased); `Data.__attrs_init_subclass__` (lines 55-66)
registers each concrete subclass in DATA_REGISTRY under the same
snake_case key.  data_structure_hook
(src/rmtpy/serialization/data_converter.py lines 20-66) recovers the
class by computing `re.sub(r"_", "", name).lower().replace("data", "")`
and looking that up in the registry. -/

/-- The regex substitution `([a-z0-9])([A-Z])` -> `\1_\2` of the
CamelCase-to-snake_case conversion (re.sub scans left to right). -/
def camelToSnake : List Char → List Char
  | [] => []
  | [a] => [a]
  | a :: b :: rest =>
      if (a.isLower || a.isDigit) && b.isUpper then a :: '_' :: camelToSnake (b :: rest)
      else a :: camelToSnake (b :: rest)

def toLowerList (l : List Char) : List Char := l.map Char.toLower

/-- Registry key and persisted metadata name of a Data subclass:
snake_case of the class name, lowercased. -/
def registryKeyOf (name : List Char) : List Char := toLowerList (camelToSnake name)

/-- Python `str.replace("data", "")`: delete non-overlapping occurrences
of `"data"` left to right. -/
def removeDataSub : List Char → List Char
  | 'd' :: 'a' :: 't' :: 'a' :: rest => removeDataSub rest
  | c :: rest => c :: removeDataSub rest
  | [] => []

/-- Lookup key computed by data_structure_hook from the persisted
metadata name: underscores removed, lowercased, `"data"` deleted. -/
def hookKey (metaName : List Char) : List Char :=
  removeDataSub (toLowerList (metaName.filter fun c => c ≠ '_'))

/-- Concrete Data subclasses registered by rmtpy.data at import time. -/
def dataRegistryNames : List (List Char) :=
  ["FormFactorsData".toList, "SpectralDensityData".toList,
   "SpacingHistogramData".toList]

def dataRegistryKeys : List (List Char) := dataRegistryNames.map registryKeyOf

/-- The registry lookup of data_structure_hook (data_converter.py
lines 49-56): raises ValueError when the mangled key is absent. -/
def dataStructureHookLookup (metaName : List Char) : Except String (List Char) :=
  if dataRegistryKeys.contains (hookKey metaName) then .ok (hookKey metaName)
  else .error "No registered data class found"

/-- Save-then-load, at the level of the class-identity metadata: save
persists the snake_case name, load feeds it to the hook lookup. -/
def saveLoadLookup (clsName : List Char) : Except String (List Char) :=
  dataStructureHookLookup (registryKeyOf clsName)

/-- C9: the round trip fails for every registered Data subclass — the
hook computes a key with no underscores and no `"data"` substring (for
FormFactorsData, `"formfactors"`), while every registry key keeps its
underscores and `_data` suffix (`"form_factors_data"`), so
`Data.load(path)` raises ValueError instead of reconstructing the saved
instance. -/
theorem c9_save_load_lookup_fails :
    isFailure (saveLoadLookup "FormFactorsData".toList) = true ∧
    isFailure (saveLoadLookup "SpectralDensityData".toList) = true ∧
    isFailure (saveLoadLookup "SpacingHistogramData".toList) = true ∧
    hookKey (registryKeyOf "FormFactorsData".toList) = "formfactors".toList ∧
    dataRegistryKeys = ["form_factors_data".toList, "spectral_density_data".toList,
      "spacing_histogram_data".toList] := by
  refine ⟨?_, ?_, ?_, ?_, ?_⟩ <;> decide

/-! ### Nearest-neighbor spacings guard (claim C10) -/

/-- Row-wise `np.diff`. -/
def diffRow (xs : List ℚ) : List ℚ := List.zipWith (fun b a => b - a) xs.tail xs

/-- The slice `spacings[:, 1::degen]`. -/
def everyKthFromOne (k : ℕ) (xs : List ℚ) : List ℚ :=
  ((xs.drop 1).enum.filter fun p => p.1 % k = 0).map Prod.snd

/-- `np.repeat(spacings, degen, axis=1)`. -/
def repeatEach (k : ℕ) (xs : List ℚ) : List ℚ := (xs.map (List.replicate k)).flatten

/-- SpectralMixin.nn_spacings (src/rmtpy/ensembles/_rmt.py lines
391-427): raises ValueError for one-dimensional ensembles before
looking at (or generating) the levels; otherwise computes row-wise
diffs and, for degeneracy above one, removes near-duplicate spacings
and repeats the survivors.  The `levels is None` sampling path
(`np.vectorize(self.unfold)(self.eigval_sample())`) is abstracted as
the `sample` function since it calls the numerical eigensolver. -/
def nnSpacings (dim degen : ℕ) (levels : Option (List (List ℚ)))
    (sample : Unit → List (List ℚ)) : Except String (List (List ℚ)) :=
  if dim = 1 then
    .error "Cannot compute nearest-neighbor spacings for 1D ensembles."
  else
    let lv := match levels with
      | some l => l
      | none => sample ()
    let spacings := lv.map diffRow
    let cleaned :=
      if 1 < degen then
        spacings.map fun row => repeatEach degen (everyKthFromOne degen row)
      else spacings
    .ok cleaned

/-- C10: for a one-dimensional ensemble, nn_spacings raises immediately
for every levels argument — provided or omitted — and never returns a
result. -/
theorem c10_nn_spacings_dim_one_raises :
    ∀ (dim degen : ℕ) (levels : Option (List (List ℚ)))
      (sample : Unit → List (List ℚ)), dim = 1 →
      nnSpacings dim degen levels sample =
        .error "Cannot compute nearest-neighbor spacings for 1D ensembles." := by
  intro dim degen levels sample h
  subst h
  rfl

/-- Witness for C10 at degeneracy 2, once with explicit levels and once
without. -/
theorem c10_nn_spacings_dim_one_raises_witness :
    nnSpacings 1 2 (some [[0, 1]]) (fun _ => []) =
      .error "Cannot compute nearest-neighbor spacings for 1D ensembles." ∧
    nnSpacings 1 2 none (fun _ => [[0, 1]]) =
      .error "Cannot compute nearest-neighbor spacings for 1D ensembles." :=
  ⟨c10_nn_spacings_dim_one_raises 1 2 (some [[0, 1]]) (fun _ => []) rfl,
   c10_nn_spacings_dim_one_raises 1 2 none (fun _ => [[0, 1]]) rfl⟩

end RMTPy
